import Mathlib

/-!
Shallow embedding of `emoji_manager.py` (maubot emoji manager plugin).

The host chat-state blob is modelled as a small JSON-like value type
`JValue` (null, string, integer, object); Python dictionaries become
association lists with unique keys, Python truthiness becomes
`JValue.truthy`, Python `a or b` becomes `pyOr`, and Python `==` on
decoded values becomes `pyEq` (order-insensitive on objects, as for
Python dicts).  Fallible remote calls are modelled with `Except`.
-/

namespace EmojiMgr

/-- JSON-like value: the shape of state-event content and config data. -/
inductive JValue where
  | null : JValue
  | str : String → JValue
  | num : Int → JValue
  | obj : List (String × JValue) → JValue

/-- Python `d.get(k)` on a dict modelled as an association list
(first binding wins; real dicts have unique keys). -/
def dictGet (fields : List (String × JValue)) (k : String) : Option JValue :=
  (fields.find? (fun p => p.1 = k)).map (fun p => p.2)

/-- Python truthiness of a `JValue`: `None`, `""`, `0` and `{}` are falsy. -/
def JValue.truthy : JValue → Bool
  | .null => false
  | .str s => s ≠ ""
  | .num n => n ≠ 0
  | .obj fields => !fields.isEmpty

/-- Python `x or y` where `x` is the result of a `.get` (possibly `None`). -/
def pyOr (x : Option JValue) (y : JValue) : JValue :=
  match x with
  | some v => if v.truthy then v else y
  | none => y

/-- `serialize_content`: an event content that is a mapping is used as-is,
anything else becomes the empty dict.  (The `hasattr(content, "serialize")`
branch is the same mapping after serialization, so a `JValue` input already
covers it.) -/
def serialize_content : JValue → List (String × JValue)
  | .obj fields => fields
  | _ => []

/-- `get_images`: `content.get("images") or content.get("emoticons") or {}`. -/
def get_images (content : List (String × JValue)) : JValue :=
  pyOr (dictGet content "images") (pyOr (dictGet content "emoticons") (.obj []))

/-- `get_pack_meta`: `content.get("pack") or {}`. -/
def get_pack_meta (content : List (String × JValue)) : JValue :=
  pyOr (dictGet content "pack") (.obj [])

/-- `build_pack_content`: `{"images": images}` plus `{"pack": pack_meta}`
only when `pack_meta` is truthy (non-empty). -/
def build_pack_content (images pack_meta : JValue) : List (String × JValue) :=
  ("images", images) :: (if pack_meta.truthy then [("pack", pack_meta)] else [])

/-- `_read_pack`: a failed read decodes like an empty dict; otherwise the
raw event content is serialized and split into (images, pack meta). -/
def read_pack (raw : Except Unit JValue) : JValue × JValue :=
  match raw with
  | .error _ => (get_images [], get_pack_meta [])
  | .ok v =>
      let content := serialize_content v
      (get_images content, get_pack_meta content)

mutual

/-- Python `==` between decoded values: structural, except that dicts
compare as finite maps (key order irrelevant). -/
def pyEq : JValue → JValue → Bool
  | .null, .null => true
  | .str a, .str b => a = b
  | .num a, .num b => a = b
  | .obj a, .obj b => a.length = b.length && pyEqFields a b
  | _, _ => false

/-- Every binding of `a` has a `pyEq`-equal binding in `b`. -/
def pyEqFields : List (String × JValue) → List (String × JValue) → Bool
  | [], _ => true
  | (k, v) :: rest, b =>
      (match dictGet b k with
       | some w => pyEq v w
       | none => false) && pyEqFields rest b

end

/-- A character allowed by the shortcode pattern `[a-zA-Z0-9_-]`. -/
def isShortcodeChar (c : Char) : Bool :=
  c.isAlpha || c.isDigit || c = '_' || c = '-'

/-- Python `re.match(r"^[a-zA-Z0-9_-]+$", s)` as a Bool: one or more
pattern characters, where `$` also matches just before a single trailing
newline (CPython `$` semantics without `re.MULTILINE`). -/
def reMatchShortcode (s : String) : Bool :=
  let cs := s.data
  (!cs.isEmpty && cs.all isShortcodeChar) ||
    (cs.getLast? = some '\n' && !cs.dropLast.isEmpty && cs.dropLast.all isShortcodeChar)

/-- `SHORTCODE_MAX_BYTES`. -/
def SHORTCODE_MAX_BYTES : Nat := 100

/-- `validate_shortcode`: regex check first, then UTF-8 byte-length check. -/
def validate_shortcode (shortcode : String) : Bool × String :=
  if !reMatchShortcode shortcode then
    (false, "Shortcode must only contain letters, numbers, hyphens, and underscores.")
  else if shortcode.utf8ByteSize > SHORTCODE_MAX_BYTES then
    (false, "Shortcode must be 100 bytes or less.")
  else
    (true, "")

/-- Per-entry validation loop of `_validate_preset`, over the raw
`images` mapping in insertion order.  Returns the kept entries and the
warnings; `Except.error` models the uncaught `AttributeError` raised by
`entry.get("url", "").startswith("mxc://")` when the `url` value is not
a string. -/
def validateImages : List (String × JValue) →
    Except String (List (String × JValue) × List String)
  | [] => .ok ([], [])
  | (shortcode, entry) :: rest =>
      let v := validate_shortcode shortcode
      if !v.1 then
        match validateImages rest with
        | .error e => .error e
        | .ok (imgs, warns) =>
            .ok (imgs, ("Skipped `" ++ shortcode ++ "`: " ++ v.2) :: warns)
      else
        match entry with
        | .obj fields =>
            match dictGet fields "url" with
            | some (.str u) =>
                if u.startsWith "mxc://" then
                  match validateImages rest with
                  | .error e => .error e
                  | .ok (imgs, warns) =>
                      .ok ((shortcode, .obj [("url", .str u)]) :: imgs, warns)
                else
                  match validateImages rest with
                  | .error e => .error e
                  | .ok (imgs, warns) =>
                      .ok (imgs,
                        ("Skipped `" ++ shortcode ++ "`: invalid or missing mxc:// URL")
                          :: warns)
            | some _ =>
                .error ("AttributeError: object has no attribute startswith (entry `"
                  ++ shortcode ++ "`)")
            | none =>
                match validateImages rest with
                | .error e => .error e
                | .ok (imgs, warns) =>
                    .ok (imgs,
                      ("Skipped `" ++ shortcode ++ "`: invalid or missing mxc:// URL")
                        :: warns)
        | _ =>
            match validateImages rest with
            | .error e => .error e
            | .ok (imgs, warns) =>
                .ok (imgs,
                  ("Skipped `" ++ shortcode ++ "`: invalid or missing mxc:// URL")
                    :: warns)

/-- Outcomes of the remote calls one bulk-rollout target can make:
`resolveR` is `_resolve_room` (room id or raised detail), `readR` is
`get_state_event` (raises on absence/failure), `writeR` is
`send_state_event`. -/
structure TargetEnv where
  resolveR : Except String Nat
  readR : Except Unit JValue
  writeR : Except String Unit

/-- How one target of `_bulk_preset` ended. -/
inductive StepOutcome where
  | resolveErr (msg : String)
  | skippedO
  | appliedO
  | writeFailed (msg : String)
  | stepError (msg : String)
deriving DecidableEq

def StepOutcome.isApplied : StepOutcome → Bool
  | .appliedO => true
  | _ => false

def StepOutcome.isSkipped : StepOutcome → Bool
  | .skippedO => true
  | _ => false

/-- The per-target error string recorded in `errors`, if any. -/
def errorOf : StepOutcome → Option String
  | .resolveErr e => some e
  | .writeFailed e => some e
  | .stepError e => some e
  | _ => none

/-- What one loop iteration of `_bulk_preset` did: its outcome, the state
event it sent (room id and content), and whether it reached the trailing
`await asyncio.sleep(delay)` (a `continue` bypasses it). -/
structure StepResult where
  outcome : StepOutcome
  sent : Option (Nat × List (String × JValue))
  slept : Bool

/-- The write half of a `_bulk_preset` iteration: send the full preset
pack; a raising send is recorded as a per-target error.  Both paths fall
through to the sleep. -/
def bulkWrite (images pack_meta : List (String × JValue)) (room : String)
    (env : TargetEnv) (roomId : Nat) : StepResult :=
  let content := build_pack_content (.obj images) (.obj pack_meta)
  match env.writeR with
  | .ok _ => { outcome := .appliedO, sent := some (roomId, content), slept := true }
  | .error e =>
      { outcome := .writeFailed (room ++ ": " ++ e), sent := some (roomId, content),
        slept := true }

/-- One iteration of the `for room in rooms` loop of `_bulk_preset`
(after the cancellation check): resolve, read, idempotency check, write.
A `continue` (resolution failure, idempotency skip) means `slept = false`;
the `AttributeError` raised by `current_pack.get` when the decoded pack
metadata is a truthy non-mapping is caught by the `except` and recorded
as a per-target error. -/
def bulkStep (images pack_meta : List (String × JValue)) (room : String)
    (env : TargetEnv) : StepResult :=
  match env.resolveR with
  | .error e =>
      { outcome := .resolveErr (room ++ ": failed to resolve — " ++ e),
        sent := none, slept := false }
  | .ok roomId =>
      let cur := read_pack env.readR
      match dictGet pack_meta "display_name" with
      | some dn =>
          if dn.truthy then
            match cur.2 with
            | .obj packFields =>
                if (match dictGet packFields "display_name" with
                    | some w => pyEq w dn
                    | none => false) && pyEq cur.1 (.obj images) then
                  { outcome := .skippedO, sent := none, slept := false }
                else
                  bulkWrite images pack_meta room env roomId
            | _ =>
                { outcome := .stepError
                    (room ++ ": AttributeError: object has no attribute get"),
                  sent := none, slept := true }
          else
            bulkWrite images pack_meta room env roomId
      | none => bulkWrite images pack_meta room env roomId

/-- Whether `self._cancel` is observed set at the top of loop iteration
`i`; `some c` says the cooperative cancel became visible from check `c`
on (the flag is set once and never cleared during a pass). -/
def cancelObserved (cancelAt : Option Nat) (i : Nat) : Bool :=
  match cancelAt with
  | some c => c ≤ i
  | none => false

/-- The `for room in rooms` loop of `_bulk_preset`: stop at the first
iteration whose cancellation check fires, otherwise run `bulkStep` on
each target in order. -/
def bulkLoop (images pack_meta : List (String × JValue)) (cancelAt : Option Nat) :
    List (String × TargetEnv) → Nat → List (String × StepResult)
  | [], _ => []
  | (room, env) :: rest, i =>
      if cancelObserved cancelAt i then []
      else (room, bulkStep images pack_meta room env)
        :: bulkLoop images pack_meta cancelAt rest (i + 1)

/-- The final report of `_bulk_preset`: counts, error list in encounter
order, and the cancelled marker read from `self._cancel`. -/
structure Report where
  applied : Nat
  skipped : Nat
  errors : List String
  cancelled : Bool
deriving DecidableEq

/-- A whole `_bulk_preset` pass: the report plus the per-target trace. -/
def bulkRun (images pack_meta : List (String × JValue)) (cancelAt : Option Nat)
    (targets : List (String × TargetEnv)) : Report × List (String × StepResult) :=
  let steps := bulkLoop images pack_meta cancelAt targets 0
  ({ applied := (steps.filter fun p => p.2.outcome.isApplied).length,
     skipped := (steps.filter fun p => p.2.outcome.isSkipped).length,
     errors := steps.filterMap fun p => errorOf p.2.outcome,
     cancelled := cancelAt.isSome },
   steps)

/-- The coordinator's mutable state: `taskRunning` is
`self._task is not None and not self._task.done()`, `cancelFlag` is
`self._cancel`. -/
structure CoordState where
  taskRunning : Bool
  cancelFlag : Bool
deriving DecidableEq

/-- Replies of the `bulk-preset` and `cancel` command handlers. -/
inductive CmdResult where
  | notAllowedR
  | alreadyRunningR
  | noRoomsR
  | presetErrR (e : String)
  | startedR
  | noJobR
  | cancellingR
deriving DecidableEq

/-- The guard chain of the `bulk-preset` handler: permission, single
flight, configured rooms, preset validation (`vErr` is the validator's
fatal error, if any); on acceptance the cancel flag is reset and the
task is spawned. -/
def bulk_preset_cmd (allowed : Bool) (st : CoordState) (roomsCfg : List String)
    (vErr : Option String) : CmdResult × CoordState :=
  if !allowed then (.notAllowedR, st)
  else if st.taskRunning then (.alreadyRunningR, st)
  else if roomsCfg.isEmpty then (.noRoomsR, st)
  else
    match vErr with
    | some e => (.presetErrR e, st)
    | none => (.startedR, { taskRunning := true, cancelFlag := false })

/-- The `cancel` handler: rejected unless a task is live, otherwise sets
the cooperative flag. -/
def cancel_cmd (allowed : Bool) (st : CoordState) : CmdResult × CoordState :=
  if !allowed then (.notAllowedR, st)
  else if !st.taskRunning then (.noJobR, st)
  else (.cancellingR, { st with cancelFlag := true })

/-- Python `needle in hay` on strings (substring test). -/
def strContains (hay needle : String) : Bool :=
  (List.range (hay.data.length + 1)).any
    (fun i => (hay.data.drop i).take needle.data.length = needle.data)

/-- Python `del d[k]` on a dict: drop the binding, keep the rest in order. -/
def dictRemove (fields : List (String × JValue)) (k : String) :
    List (String × JValue) :=
  fields.filter (fun p => p.1 ≠ k)

/-- Replies of the `remove` command handler. -/
inductive RemoveResult where
  | notAllowed
  | notFound (shortcode : String)
  | removed (shortcode : String)
  | errorReply (msg : String)
deriving DecidableEq

/-- The `remove` handler: read, membership test, delete, write back with
the pack metadata untouched.  Returns the reply and the state event
content sent, if any; `shortcode not in images` on a decoded non-mapping
follows Python (`in` on a string is a substring test, on other values a
`TypeError` caught by the handler). -/
def remove_emoji (allowed : Bool) (readR : Except Unit JValue)
    (writeR : Except String Unit) (shortcode : String) :
    RemoveResult × Option (List (String × JValue)) :=
  if !allowed then (.notAllowed, none)
  else
    let cur := read_pack readR
    match cur.1 with
    | .obj fields =>
        if (dictGet fields shortcode).isNone then (.notFound shortcode, none)
        else
          let content := build_pack_content (.obj (dictRemove fields shortcode)) cur.2
          match writeR with
          | .ok _ => (.removed shortcode, some content)
          | .error e => (.errorReply ("Error: " ++ e), some content)
    | .str t =>
        if !strContains t shortcode then (.notFound shortcode, none)
        else (.errorReply "Error: TypeError: str object does not support item deletion",
          none)
    | _ => (.errorReply "Error: TypeError: argument is not iterable", none)

/-! ## Codec claims -/

/-- C5: decoding the encoding of an Entry Set `E` and Pack Metadata `M`
returns exactly `(E, M)`; the encoder omits the `pack` field when the
metadata is empty, and decoding still recovers empty metadata. -/
theorem claim_C5_roundtrip (E M : List (String × JValue)) :
    get_images (build_pack_content (.obj E) (.obj M)) = .obj E ∧
    get_pack_meta (build_pack_content (.obj E) (.obj M)) = .obj M ∧
    dictGet (build_pack_content (.obj E) (.obj [])) "pack" = none := by
  rcases E with _ | ⟨e, es⟩ <;> rcases M with _ | ⟨m, ms⟩ <;>
    exact ⟨rfl, rfl, rfl⟩

/-- C6 counterexample: a corrupt pack whose `images` field is a string
does not decode to an empty Entry Set — the string is passed through. -/
theorem claim_C6_counterexample :
    read_pack (.ok (.obj [("images", .str "hello")])) = (.str "hello", .obj []) ∧
    JValue.str "hello" ≠ .obj [] :=
  ⟨rfl, fun h => JValue.noConfusion h⟩

/-- C6 amended: decoding is total, and an absent blob, a failed read, or
a blob that is not a mapping decodes to an empty Entry Set and empty
Pack Metadata; a mapping blob's fields are passed through without type
checking. -/
theorem claim_C6_amended (raw : Except Unit JValue)
    (h : raw = .error () ∨ ∀ fields, raw ≠ .ok (.obj fields)) :
    read_pack raw = (.obj [], .obj []) := by
  rcases raw with u | v
  · rfl
  · rcases v with _ | s | n | fields
    · rfl
    · rfl
    · rfl
    · rcases h with h | h
      · exact Except.noConfusion h
      · exact absurd rfl (h fields)

/-- C6 witness: a non-mapping blob decodes to the empty pack. -/
theorem claim_C6_witness :
    read_pack (.ok (.str "garbage")) = (.obj [], .obj []) :=
  claim_C6_amended (.ok (.str "garbage"))
    (Or.inr (by intro fields h; injection h with h2; exact JValue.noConfusion h2))

/-- C10: when both the canonical `images` field and the legacy
`emoticons` field are present, the canonical one is used only when its
value is truthy; a falsy canonical value falls back to the legacy
field's value. -/
theorem claim_C10_legacy_fallback (content : List (String × JValue))
    (v w : JValue)
    (hv : dictGet content "images" = some v)
    (hw : dictGet content "emoticons" = some w) :
    (v.truthy = true → get_images content = v) ∧
    (v.truthy = false → w.truthy = true → get_images content = w) := by
  constructor
  · intro ht
    simp [get_images, pyOr, hv, ht]
  · intro hf hwt
    simp [get_images, pyOr, hv, hw, hf, hwt]

/-- C10 witness: an empty canonical `images` next to a non-empty legacy
`emoticons` decodes to the legacy entries. -/
theorem claim_C10_witness :
    get_images [("images", .obj []), ("emoticons", .obj [("happy", .null)])]
      = .obj [("happy", .null)] :=
  (claim_C10_legacy_fallback
      [("images", .obj []), ("emoticons", .obj [("happy", .null)])]
      (.obj []) (.obj [("happy", .null)]) rfl rfl).2 rfl rfl

/-! ## Validator claims -/

/-- C7: evaluating the per-entry validation loop on a record entry whose
`url` value is a number: `entry.get("url", "").startswith(...)` raises,
aborting validation of the remaining entries instead of warning and
dropping the entry. -/
theorem claim_C7_eval :
    validateImages [("ok", .obj [("url", .num 123)]),
        ("later", .obj [("url", .str "mxc://s/b")])]
      = .error "AttributeError: object has no attribute startswith (entry `ok`)" :=
  rfl

/-- The spec's character-set condition for shortcodes, stated from the
claim's words: a non-empty string of characters from `[A-Za-z0-9_-]`. -/
def specCharsOnly (s : String) : Bool :=
  !s.data.isEmpty && s.data.all isShortcodeChar

/-- The spec's acceptance predicate for `validateShortcode`: matches the
character-set pattern and is at most 100 UTF-8 bytes. -/
def specShortcodeOk (s : String) : Bool :=
  specCharsOnly s && s.utf8ByteSize ≤ 100

/-- C8 counterexample: `"abc\n"` is accepted by the code (CPython `$`
also matches just before a single trailing newline) but does not match
the spec's pattern. -/
theorem claim_C8_counterexample :
    (validate_shortcode "abc\n").1 = true ∧ specShortcodeOk "abc\n" = false := by
  constructor <;> decide

/-- Bridge: the code's regex acceptance in terms of the spec pattern. -/
theorem reMatchShortcode_iff (s : String) :
    reMatchShortcode s = true ↔
      (specCharsOnly s = true ∨
        (s.data.getLast? = some '\n' ∧
          specCharsOnly (String.mk s.data.dropLast) = true)) := by
  simp [reMatchShortcode, specCharsOnly, String.mk, Bool.or_eq_true,
    Bool.and_eq_true, and_assoc]

/-- C8 amended: the code accepts exactly the strings matching the spec
pattern, up to one optional trailing newline tolerated by CPython `$`,
with the UTF-8 byte bound checked on the whole string; each rejection
reason names the violated rule. -/
theorem claim_C8_amended (s : String) :
    ((validate_shortcode s).1 = true ↔
      ((specCharsOnly s = true ∨
          (s.data.getLast? = some '\n' ∧
            specCharsOnly (String.mk s.data.dropLast) = true)) ∧
        s.utf8ByteSize ≤ 100)) ∧
    (reMatchShortcode s = false →
      (validate_shortcode s).2
        = "Shortcode must only contain letters, numbers, hyphens, and underscores.") ∧
    (reMatchShortcode s = true → s.utf8ByteSize > 100 →
      (validate_shortcode s).2 = "Shortcode must be 100 bytes or less.") := by
  refine ⟨?_, ?_, ?_⟩
  · rw [← reMatchShortcode_iff]
    by_cases hm : reMatchShortcode s = true
    · by_cases hb : s.utf8ByteSize ≤ 100
      · simp [validate_shortcode, SHORTCODE_MAX_BYTES, hm, hb, Nat.not_lt.mpr hb]
      · simp [validate_shortcode, SHORTCODE_MAX_BYTES, hm, hb, Nat.not_le.mp hb]
    · have hm2 : reMatchShortcode s = false := by
        cases h : reMatchShortcode s
        · rfl
        · exact absurd h hm
      simp [validate_shortcode, hm2]
  · intro hm
    simp [validate_shortcode, hm]
  · intro hm hb
    simp [validate_shortcode, SHORTCODE_MAX_BYTES, hm, hb]

/-- C8 witness: `happy` is accepted, and the amended acceptance
condition holds of it. -/
theorem claim_C8_witness : (validate_shortcode "happy").1 = true :=
  (claim_C8_amended "happy").1.mpr (by decide)

/-! ## Coordinator guard claims -/

/-- C2: with a job live, `bulk-preset` is rejected as already running and
the state (hence the job set) is unchanged; with no job live, `cancel` is
rejected and the state is unchanged. -/
theorem claim_C2_single_flight :
    (∀ (st : CoordState) (roomsCfg : List String) (vErr : Option String),
        st.taskRunning = true →
        bulk_preset_cmd true st roomsCfg vErr = (.alreadyRunningR, st)) ∧
    (∀ st : CoordState, st.taskRunning = false →
        cancel_cmd true st = (.noJobR, st)) := by
  constructor
  · intro st roomsCfg vErr h
    simp [bulk_preset_cmd, h]
  · intro st h
    simp [cancel_cmd, h]

/-- C2 witness: concrete running and idle states. -/
theorem claim_C2_witness :
    bulk_preset_cmd true ⟨true, false⟩ ["#room:x"] none
        = (.alreadyRunningR, ⟨true, false⟩) ∧
    cancel_cmd true ⟨false, false⟩ = (.noJobR, ⟨false, false⟩) :=
  ⟨claim_C2_single_flight.1 ⟨true, false⟩ ["#room:x"] none rfl,
   claim_C2_single_flight.2 ⟨false, false⟩ rfl⟩

/-! ## Bulk rollout claims -/

/-- The outcomes after which the loop body of `_bulk_preset` reaches the
trailing sleep (every outcome except the two `continue` paths). -/
def sleepAfterOutcome : StepOutcome → Bool
  | .resolveErr _ => false
  | .skippedO => false
  | _ => true

/-- Whether a step sleeps is determined by its outcome class. -/
theorem bulkStep_slept (images pack_meta : List (String × JValue))
    (room : String) (env : TargetEnv) :
    (bulkStep images pack_meta room env).slept
      = sleepAfterOutcome (bulkStep images pack_meta room env).outcome := by
  simp only [bulkStep, bulkWrite]
  repeat' split
  all_goals rfl

/-- An example preset Entry Set: one validated entry. -/
def exImages : List (String × JValue) := [("happy", .obj [("url", .str "mxc://s/a")])]

/-- Two targets: the first fails to resolve, the second applies cleanly. -/
def exTargetsC1 : List (String × TargetEnv) :=
  [("#a:x", { resolveR := .error "no alias", readR := .error (), writeR := .ok () }),
   ("#b:x", { resolveR := .ok 2, readR := .error (), writeR := .ok () })]

/-- The waiting pattern the claim predicts for an uncancelled pass over
`n` targets, stated from the claim's words: a wait after every target
except the last. -/
def claimDelayFlags (n : Nat) : List Bool :=
  (List.range n).map (fun i => decide (i + 1 < n))

/-- C1 counterexample: in a two-target uncancelled pass whose first
target fails to resolve and whose second applies, the code sleeps after
the second (last) target only — the claim predicts a sleep after the
first and none after the last. -/
theorem claim_C1_counterexample :
    ((bulkLoop exImages [] none exTargetsC1 0).map (fun p => p.2.outcome)
        = [.resolveErr "#a:x: failed to resolve — no alias", .appliedO]) ∧
    ((bulkLoop exImages [] none exTargetsC1 0).map (fun p => p.2.slept)
        = [false, true]) ∧
    claimDelayFlags 2 = [true, false] ∧
    ([false, true] ≠ claimDelayFlags 2) :=
  ⟨rfl, rfl, rfl, by decide⟩

/-- C1 amended: the inter-target wait happens exactly after targets whose
outcome was applied, a failed write, or an in-step exception — including
after the last target; resolution failures and idempotency skips move on
immediately with no wait, and no wait follows an observed cancellation
(such targets are not processed at all). -/
theorem claim_C1_amended (images pack_meta : List (String × JValue))
    (cancelAt : Option Nat) (targets : List (String × TargetEnv)) (i : Nat) :
    ((bulkLoop images pack_meta cancelAt targets i).all
      (fun p => p.2.slept == sleepAfterOutcome p.2.outcome)) = true := by
  induction targets generalizing i with
  | nil => rfl
  | cons t rest ih =>
      rcases t with ⟨room, env⟩
      by_cases hc : cancelObserved cancelAt i = true
      · simp [bulkLoop, hc]
      · have hc2 : cancelObserved cancelAt i = false := by
          cases h : cancelObserved cancelAt i
          · rfl
          · exact absurd h hc
        simp [bulkLoop, hc2, bulkStep_slept, ih]

/-- C4 environment: the target's current pack equals the preset whose
metadata carries an empty display name. -/
def exEnvC4 : TargetEnv :=
  { resolveR := .ok 1,
    readR := .ok (.obj [("images", .obj exImages),
      ("pack", .obj [("display_name", .str "")])]),
    writeR := .ok () }

/-- C4 counterexample: the preset's Pack Metadata carries a display-name
attribute (the empty string), the target's display name and Entry Set
match the preset exactly, yet the step writes the full pack instead of
being counted as skipped — the code demands a truthy display name. -/
theorem claim_C4_counterexample :
    (dictGet [("display_name", JValue.str "")] "display_name"
        = some (.str "")) ∧
    ((read_pack exEnvC4.readR).2 = .obj [("display_name", .str "")]) ∧
    (pyEq (.str "") (.str "") = true) ∧
    (pyEq (read_pack exEnvC4.readR).1 (.obj exImages) = true) ∧
    ((bulkStep exImages [("display_name", .str "")] "#a:x" exEnvC4).outcome
        = .appliedO) ∧
    ((bulkStep exImages [("display_name", .str "")] "#a:x" exEnvC4).sent
        = some (1, build_pack_content (.obj exImages)
            (.obj [("display_name", .str "")]))) ∧
    (StepOutcome.appliedO ≠ .skippedO) :=
  ⟨rfl, rfl, rfl, rfl, rfl, rfl, by decide⟩

/-- C4 amended: a resolved target is counted skipped (with nothing sent)
exactly when the preset metadata's display-name is present and truthy,
the decoded current pack metadata is a mapping whose display-name equals
the preset's, and the current Entry Set equals the preset's; otherwise
the full preset pack is sent to the target — except that a truthy
display-name with a non-mapping current pack metadata raises in-step and
sends nothing. -/
theorem claim_C4_idempotency (images pack_meta : List (String × JValue))
    (room : String) (env : TargetEnv) (roomId : Nat)
    (hres : env.resolveR = .ok roomId) :
    ((bulkStep images pack_meta room env).outcome = .skippedO ↔
      (∃ dn, dictGet pack_meta "display_name" = some dn ∧ dn.truthy = true ∧
        (∃ packFields, (read_pack env.readR).2 = .obj packFields ∧
          (∃ w, dictGet packFields "display_name" = some w ∧ pyEq w dn = true)) ∧
        pyEq (read_pack env.readR).1 (.obj images) = true)) ∧
    ((bulkStep images pack_meta room env).outcome = .skippedO →
      (bulkStep images pack_meta room env).sent = none) ∧
    ((bulkStep images pack_meta room env).outcome ≠ .skippedO →
      (∃ e, (bulkStep images pack_meta room env).outcome = .stepError e ∧
          (bulkStep images pack_meta room env).sent = none) ∨
        (bulkStep images pack_meta room env).sent
          = some (roomId, build_pack_content (.obj images) (.obj pack_meta))) := by
  rcases hd : dictGet pack_meta "display_name" with _ | dn
  · -- no display-name attribute: the write always happens
    have heq : (bulkStep images pack_meta room env).outcome ≠ .skippedO ∧
        (bulkStep images pack_meta room env).sent
          = some (roomId, build_pack_content (.obj images) (.obj pack_meta)) := by
      rcases hw : env.writeR with e | u <;>
        simp [bulkStep, bulkWrite, hres, hd, hw]
    refine ⟨?_, ?_, ?_⟩
    · constructor
      · intro h
        exact absurd h heq.1
      · rintro ⟨dn2, hdn2, -⟩
        exact Option.noConfusion hdn2
    · intro h
      exact absurd h heq.1
    · intro _
      exact Or.inr heq.2
  · by_cases ht : dn.truthy = true
    · rcases hcur : (read_pack env.readR).2 with _ | s | n | packFields
      -- the three non-mapping cases: `current_pack.get` raises
      · have heq : (bulkStep images pack_meta room env).outcome
              = .stepError (room ++ ": AttributeError: object has no attribute get") ∧
            (bulkStep images pack_meta room env).sent = none := by
          simp [bulkStep, bulkWrite, hres, hd, ht, hcur]
        refine ⟨?_, ?_, ?_⟩
        · constructor
          · intro h
            rw [heq.1] at h
            exact StepOutcome.noConfusion h
          · rintro ⟨dn2, hdn2, -, ⟨pf, hpf, -⟩, -⟩
            exact JValue.noConfusion hpf
        · intro h
          rw [heq.1] at h
          exact StepOutcome.noConfusion h
        · intro _
          exact Or.inl ⟨room ++ ": AttributeError: object has no attribute get",
            heq.1, heq.2⟩
      · have heq : (bulkStep images pack_meta room env).outcome
              = .stepError (room ++ ": AttributeError: object has no attribute get") ∧
            (bulkStep images pack_meta room env).sent = none := by
          simp [bulkStep, bulkWrite, hres, hd, ht, hcur]
        refine ⟨?_, ?_, ?_⟩
        · constructor
          · intro h
            rw [heq.1] at h
            exact StepOutcome.noConfusion h
          · rintro ⟨dn2, hdn2, -, ⟨pf, hpf, -⟩, -⟩
            exact JValue.noConfusion hpf
        · intro h
          rw [heq.1] at h
          exact StepOutcome.noConfusion h
        · intro _
          exact Or.inl ⟨room ++ ": AttributeError: object has no attribute get",
            heq.1, heq.2⟩
      · have heq : (bulkStep images pack_meta room env).outcome
              = .stepError (room ++ ": AttributeError: object has no attribute get") ∧
            (bulkStep images pack_meta room env).sent = none := by
          simp [bulkStep, bulkWrite, hres, hd, ht, hcur]
        refine ⟨?_, ?_, ?_⟩
        · constructor
          · intro h
            rw [heq.1] at h
            exact StepOutcome.noConfusion h
          · rintro ⟨dn2, hdn2, -, ⟨pf, hpf, -⟩, -⟩
            exact JValue.noConfusion hpf
        · intro h
          rw [heq.1] at h
          exact StepOutcome.noConfusion h
        · intro _
          exact Or.inl ⟨room ++ ": AttributeError: object has no attribute get",
            heq.1, heq.2⟩
      ·
        cases hcond : ((match dictGet packFields "display_name" with
            | some w => pyEq w dn
            | none => false) && pyEq (read_pack env.readR).1 (.obj images)) with
        | true =>
            have heq : (bulkStep images pack_meta room env).outcome = .skippedO ∧
                (bulkStep images pack_meta room env).sent = none := by
              simp [bulkStep, bulkWrite, hres, hd, ht, hcur, hcond]
            rw [Bool.and_eq_true] at hcond
            refine ⟨?_, ?_, ?_⟩
            · constructor
              · intro _
                refine ⟨dn, rfl, ht, ⟨packFields, rfl, ?_⟩, hcond.2⟩
                rcases hwd : dictGet packFields "display_name" with _ | w
                · rw [hwd] at hcond
                  exact absurd hcond.1 (by simp)
                · rw [hwd] at hcond
                  exact ⟨w, rfl, hcond.1⟩
              · intro _
                exact heq.1
            · intro _
              exact heq.2
            · intro h
              exact absurd heq.1 h
        | false =>
            have heq : (bulkStep images pack_meta room env).outcome ≠ .skippedO ∧
                (bulkStep images pack_meta room env).sent
                  = some (roomId, build_pack_content (.obj images) (.obj pack_meta)) := by
              rcases hw : env.writeR with e | u <;>
                simp [bulkStep, bulkWrite, hres, hd, ht, hcur, hcond, hw]
            refine ⟨?_, ?_, ?_⟩
            · constructor
              · intro h
                exact absurd h heq.1
              · rintro ⟨dn2, hdn2, ht3, ⟨pf, hpf, w, hwf, hwq⟩, himg⟩
                injection hdn2 with hdn2
                subst hdn2
                injection hpf with hpf
                subst hpf
                rw [hwf] at hcond
                simp [hwq, himg] at hcond
            · intro h
              exact absurd h heq.1
            · intro _
              exact Or.inr heq.2
    · have ht2 : dn.truthy = false := by
        cases h : dn.truthy
        · rfl
        · exact absurd h ht
      have heq : (bulkStep images pack_meta room env).outcome ≠ .skippedO ∧
          (bulkStep images pack_meta room env).sent
            = some (roomId, build_pack_content (.obj images) (.obj pack_meta)) := by
        rcases hw : env.writeR with e | u <;>
          simp [bulkStep, bulkWrite, hres, hd, ht2, hw]
      refine ⟨?_, ?_, ?_⟩
      · constructor
        · intro h
          exact absurd h heq.1
        · rintro ⟨dn2, hdn2, ht3, -⟩
          injection hdn2 with hdn2
          subst hdn2
          exact absurd ht3 ht
      · intro h
        exact absurd h heq.1
      · intro _
        exact Or.inr heq.2

/-- C4 witness environment: the target already matches a preset whose
display name is truthy. -/
def exEnvC4w : TargetEnv :=
  { resolveR := .ok 1,
    readR := .ok (.obj [("images", .obj exImages),
      ("pack", .obj [("display_name", .str "Cool")])]),
    writeR := .ok () }

/-- C4 witness: a matching target with a truthy preset display name is
counted skipped. -/
theorem claim_C4_witness :
    (bulkStep exImages [("display_name", .str "Cool")] "#a:x" exEnvC4w).outcome
      = .skippedO :=
  (claim_C4_idempotency exImages [("display_name", .str "Cool")] "#a:x" exEnvC4w 1
      rfl).1.mpr
    ⟨.str "Cool", rfl, rfl,
      ⟨[("display_name", .str "Cool")], rfl, ⟨.str "Cool", rfl, rfl⟩⟩, rfl⟩

/-- Every processed step contributes exactly one applied, skipped, or
recorded error. -/
theorem counts_add_up (steps : List (String × StepResult)) :
    (steps.filter fun p => p.2.outcome.isApplied).length
      + (steps.filter fun p => p.2.outcome.isSkipped).length
      + (steps.filterMap fun p => errorOf p.2.outcome).length
      = steps.length := by
  induction steps with
  | nil => rfl
  | cons p rest ih =>
      rcases p with ⟨room, st⟩
      cases h : st.outcome with
      | resolveErr e =>
          have h1 : (StepOutcome.resolveErr e).isApplied = false := rfl
          have h2 : (StepOutcome.resolveErr e).isSkipped = false := rfl
          have h3 : errorOf (.resolveErr e) = some e := rfl
          simp [List.filter_cons, List.filterMap_cons, h, h1, h2, h3]
          omega
      | skippedO =>
          have h1 : StepOutcome.skippedO.isApplied = false := rfl
          have h2 : StepOutcome.skippedO.isSkipped = true := rfl
          have h3 : errorOf .skippedO = none := rfl
          simp [List.filter_cons, List.filterMap_cons, h, h1, h2, h3]
          omega
      | appliedO =>
          have h1 : StepOutcome.appliedO.isApplied = true := rfl
          have h2 : StepOutcome.appliedO.isSkipped = false := rfl
          have h3 : errorOf .appliedO = none := rfl
          simp [List.filter_cons, List.filterMap_cons, h, h1, h2, h3]
          omega
      | writeFailed e =>
          have h1 : (StepOutcome.writeFailed e).isApplied = false := rfl
          have h2 : (StepOutcome.writeFailed e).isSkipped = false := rfl
          have h3 : errorOf (.writeFailed e) = some e := rfl
          simp [List.filter_cons, List.filterMap_cons, h, h1, h2, h3]
          omega
      | stepError e =>
          have h1 : (StepOutcome.stepError e).isApplied = false := rfl
          have h2 : (StepOutcome.stepError e).isSkipped = false := rfl
          have h3 : errorOf (.stepError e) = some e := rfl
          simp [List.filter_cons, List.filterMap_cons, h, h1, h2, h3]
          omega

/-- With the cancel flag visible from check `c` on, the loop processes
exactly the targets before position `c`. -/
theorem bulkLoop_cancel_took (images pack_meta : List (String × JValue))
    (c : Nat) (targets : List (String × TargetEnv)) (i : Nat) :
    (bulkLoop images pack_meta (some c) targets i).map Prod.fst
      = (targets.map Prod.fst).take (c - i) := by
  induction targets generalizing i with
  | nil => simp [bulkLoop]
  | cons t rest ih =>
      rcases t with ⟨room, env⟩
      by_cases hc : c ≤ i
      · have h0 : c - i = 0 := by omega
        simp [bulkLoop, cancelObserved, hc, h0]
      · have h1 : cancelObserved (some c) i = false := by
          simp [cancelObserved]
          omega
        have h2 : c - i = (c - (i + 1)) + 1 := by omega
        simp [bulkLoop, h1, h2, ih]

/-- C3: once the cooperative cancel is visible from loop check `c` on,
the report is flagged cancelled, only the first `c` targets are
processed (none beyond the one in flight is applied or written), the
counters sum to the number of processed targets, and a cancellation
before the last target leaves applied + skipped + errored strictly below
the target count. -/
theorem claim_C3_cancellation (images pack_meta : List (String × JValue))
    (targets : List (String × TargetEnv)) (c : Nat) :
    ((bulkRun images pack_meta (some c) targets).1.cancelled = true) ∧
    ((bulkRun images pack_meta (some c) targets).2.map Prod.fst
        = (targets.map Prod.fst).take c) ∧
    ((bulkRun images pack_meta (some c) targets).1.applied
        + (bulkRun images pack_meta (some c) targets).1.skipped
        + (bulkRun images pack_meta (some c) targets).1.errors.length
        = min c targets.length) ∧
    (c < targets.length →
      (bulkRun images pack_meta (some c) targets).1.applied
        + (bulkRun images pack_meta (some c) targets).1.skipped
        + (bulkRun images pack_meta (some c) targets).1.errors.length
        < targets.length) := by
  have hpre := bulkLoop_cancel_took images pack_meta c targets 0
  rw [Nat.sub_zero] at hpre
  have hlen : (bulkLoop images pack_meta (some c) targets 0).length
      = min c targets.length := by
    have h2 := congrArg List.length hpre
    simpa using h2
  have hsum := counts_add_up (bulkLoop images pack_meta (some c) targets 0)
  refine ⟨rfl, ?_, ?_, ?_⟩
  · simpa [bulkRun] using hpre
  · simp only [bulkRun]
    omega
  · intro hc
    simp only [bulkRun]
    omega

/-- C3 witness: cancellation visible before a two-target pass starts
processes nothing, and the counters stay below the target count. -/
theorem claim_C3_witness :
    0 < exTargetsC1.length ∧
    (bulkRun exImages [] (some 0) exTargetsC1).1.applied
      + (bulkRun exImages [] (some 0) exTargetsC1).1.skipped
      + (bulkRun exImages [] (some 0) exTargetsC1).1.errors.length
      < exTargetsC1.length :=
  ⟨by decide, (claim_C3_cancellation exImages [] exTargetsC1 0).2.2.2 (by decide)⟩

/-! ## Single-target remove claim -/

/-- C9: removing a shortcode absent from a container's Entry Set replies
"not found", performs no write, and so leaves the pack unchanged. -/
theorem claim_C9_remove_absent (readR : Except Unit JValue)
    (writeR : Except String Unit) (fields : List (String × JValue))
    (pm : JValue) (shortcode : String)
    (hread : read_pack readR = (.obj fields, pm))
    (habs : dictGet fields shortcode = none) :
    remove_emoji true readR writeR shortcode = (.notFound shortcode, none) := by
  simp [remove_emoji, hread, habs]

/-- C9 witness: removing `ghost` from a pack that only has `happy`. -/
theorem claim_C9_witness :
    remove_emoji true
      (.ok (.obj [("images", .obj [("happy", .obj [("url", .str "mxc://s/a")])])]))
      (.ok ()) "ghost" = (.notFound "ghost", none) :=
  claim_C9_remove_absent _ _ [("happy", .obj [("url", .str "mxc://s/a")])]
    (.obj []) "ghost" rfl rfl

end EmojiMgr
